import Mathlib

/-!
Verification of the pagination and resource-listing behaviour of the
Flask clothing-store REST API (src/api/views.py).

The repository ships only `src/api/views.py`; the `PaginationHelper`
class (helpers.py), the ORM models (models.py) and the token utilities
(token_mail.py) are external collaborators from the point of view of the
provided sources.  Where a definition embeds such a missing component it
is modelled from the specification document and marked as such in its
doc comment.  Everything else is a direct shallow embedding of
src/api/views.py: record stores become lists of records, the ORM session
becomes explicit state passing, HTTP responses become status codes
paired with the resulting store.
-/

/-! ## HTTP status codes (the `status` module used by views.py) -/

def HTTP_200_OK : Nat := 200

def HTTP_201_CREATED : Nat := 201

def HTTP_400_BAD_REQUEST : Nat := 400

def HTTP_404_NOT_FOUND : Nat := 404

/-! ## Pagination engine (modelled from the spec) -/

/-- Modelled from the spec: configuration of the pagination engine
(helpers.py is not among the provided sources).  `defaultPerPage` is the
configured default page size (spec: e.g. 25); `maxPerPage` the configured
maximum (spec: e.g. 100). -/
structure PaginationConfig where
  defaultPerPage : Nat
  maxPerPage : Nat
deriving DecidableEq, Repr

/-- Modelled from the spec: "`perPage` is clamped to `[1, maxPerPage]`".
A requested value below 1 becomes 1, a value above the maximum becomes
the maximum. -/
def clampPerPage (cfg : PaginationConfig) (requested : Int) : Nat :=
  max 1 (min requested.toNat cfg.maxPerPage)

/-- Modelled from the spec: the effective page size of a request — the
requested `per_page` query parameter when present, the configured
default otherwise, clamped into `[1, maxPerPage]`. -/
def effPerPage (cfg : PaginationConfig) (perPage? : Option Int) : Nat :=
  clampPerPage cfg (perPage?.getD (cfg.defaultPerPage : Int))

/-- Modelled from the spec: number of pages, the ceiling of
`totalCount / perPage` computed in integer arithmetic. -/
def pageCountOf (totalCount pp : Nat) : Nat :=
  (totalCount + pp - 1) / pp

/-- Modelled from the spec: a navigation link encoding the list endpoint
plus `page` / `per_page` query parameters. -/
def mkLink (endpoint : String) (page pp : Nat) : String :=
  endpoint ++ "?page=" ++ toString page ++ "&per_page=" ++ toString pp

/-- Modelled from the spec: the error taxonomy of the pagination engine. -/
inductive ClientError where
  | InvalidPage
  | PageOutOfRange
deriving DecidableEq, Repr

/-- Modelled from the spec: both client errors are surfaced as a
4xx-class HTTP response; the spec fixes 404 for PageOutOfRange and
leaves 404/400 open for InvalidPage, requiring only a consistent
documented choice — the model uses 404 for both. -/
def ClientError.httpStatus : ClientError → Nat
  | ClientError.InvalidPage => HTTP_404_NOT_FOUND
  | ClientError.PageOutOfRange => HTTP_404_NOT_FOUND

/-- Modelled from the spec: `Page<T>` — one bounded slice of the
collection plus navigation metadata. -/
structure Page (σ : Type) where
  items : List σ
  totalCount : Nat
  pageCount : Nat
  selfLink : String
  nextLink : Option String
  prevLink : Option String
deriving DecidableEq, Repr

/-- Modelled from the spec: the successful result of a paginate call at
(1-based) page `page` with effective page size `pp`: the slice of length
at most `pp` starting at offset `(page-1)*pp`, serialized; `next` when
`page < pageCount`, `prev` when `page > 1`. -/
def mkPage {α σ : Type} (data : List α) (endpoint : String) (serialize : α → σ)
    (page pp : Nat) : Page σ :=
  { items := ((data.drop ((page - 1) * pp)).take pp).map serialize
    totalCount := data.length
    pageCount := pageCountOf data.length pp
    selfLink := mkLink endpoint page pp
    nextLink := if page < pageCountOf data.length pp then
        some (mkLink endpoint (page + 1) pp) else none
    prevLink := if 1 < page then some (mkLink endpoint (page - 1) pp) else none }

/-- Modelled from the spec: `paginate(collection, request, resourceId,
serialize)` from §4.1 (the `PaginationHelper.paginate_query` of
helpers.py, which is not among the provided sources).  The collection is
a list, `count()` its length and `slice(offset, limit)` a drop/take.
Missing query parameters default to page 1 and the configured page size;
`page` below 1 fails with InvalidPage; an offset `(page-1)*perPage`
at or past a positive `totalCount` fails with PageOutOfRange. -/
def paginate {α σ : Type} (cfg : PaginationConfig) (data : List α) (endpoint : String)
    (serialize : α → σ) (page? perPage? : Option Int) : Except ClientError (Page σ) :=
  if (page?.getD 1) < 1 then
    Except.error ClientError.InvalidPage
  else if 0 < data.length ∧
      data.length ≤ ((page?.getD 1).toNat - 1) * effPerPage cfg perPage? then
    Except.error ClientError.PageOutOfRange
  else
    Except.ok (mkPage data endpoint serialize (page?.getD 1).toNat (effPerPage cfg perPage?))

/-! ## Record stores (the ORM tables behind models.py, seen through
views.py: lists of records, primary-key ids assigned by the store) -/

/-- A row of the Category table as used by views.py: an id and a name. -/
structure CategoryRec where
  id : Nat
  name : String
deriving DecidableEq, Repr

/-- A row of the Product table as used by views.py. -/
structure ProductRec where
  id : Nat
  product : String
  price : Int
  size : String
  quantity : Int
  categoryId : Nat
deriving DecidableEq, Repr

/-- A row of the User table as used by views.py; `confirmed_on` is the
confirmation timestamp (absent until the account is confirmed). -/
structure UserRec where
  id : Nat
  name : String
  email : String
  confirmed : Bool
  confirmed_on : Option Nat
deriving DecidableEq, Repr

/-- Modelled from the spec (models.py is not among the provided
sources): `Category.is_unique(id=..., name=...)` — the single-pass
uniqueness check: true when no row other than the one with the given id
carries the name.  views.py calls it with id 0 for creation. -/
def Category.is_unique (store : List CategoryRec) (id : Nat) (name : String) : Bool :=
  store.all (fun c => !(c.name == name) || (c.id == id))

/-- Modelled from the spec (models.py is not among the provided
sources): `Product.is_unique(id=..., product=...)`, as for categories
but keyed on the product name. -/
def Product.is_unique (store : List ProductRec) (id : Nat) (product : String) : Bool :=
  store.all (fun p => !(p.product == product) || (p.id == id))

/-! ## List endpoints (src/api/views.py) -/

/-- The `page` / `per_page` query parameters of a GET on a list
endpoint; `none` when the parameter is absent from the request. -/
structure ListQueryParams where
  page : Option Int
  perPage : Option Int
deriving DecidableEq, Repr

/-- CategoryListResource.get (views.py lines 256-259): returns
`Category.query.all()` dumped through the schema — the whole store,
serialized; the request's query parameters are never read. -/
def categoryListGet {σ : Type} (serialize : CategoryRec → σ)
    (store : List CategoryRec) : List σ :=
  store.map serialize

/-- ProductListResource.get (views.py lines 166-174): delegates to the
pagination engine over `Product.query` with the request's parameters. -/
def productListGet {σ : Type} (cfg : PaginationConfig) (serialize : ProductRec → σ)
    (store : List ProductRec) (q : ListQueryParams) : Except ClientError (Page σ) :=
  paginate cfg store "/products/" serialize q.page q.perPage

/-- UserListResource.get (views.py lines 63-72): delegates to the
pagination engine over `User.query` with the request's parameters. -/
def userListGet {σ : Type} (cfg : PaginationConfig) (serialize : UserRec → σ)
    (store : List UserRec) (q : ListQueryParams) : Except ClientError (Page σ) :=
  paginate cfg store "/users/" serialize q.page q.perPage

/-- Modelled from the spec: what §6 of the specification describes for a
GET on `/categories/` — a page produced by the pagination engine,
controlled by the `page` / `per_page` query parameters.  Stated only to
be compared with `categoryListGet`, the behaviour of the source. -/
def categoryListGetSpec {σ : Type} (cfg : PaginationConfig) (serialize : CategoryRec → σ)
    (store : List CategoryRec) (q : ListQueryParams) : Except ClientError (Page σ) :=
  paginate cfg store "/categories/" serialize q.page q.perPage

/-! ## POST handlers (src/api/views.py) -/

/-- Outcome of a POST handler: HTTP status, response message, and the
store as left by the handler. -/
structure PostOutcome (ρ : Type) where
  status : Nat
  message : String
  store : ρ
deriving DecidableEq, Repr

/-- CategoryListResource.post (views.py lines 261-282).  `validate` is
the external schema validator (true = no errors); `newId` the primary
key the store assigns on insert; `body?` the parsed JSON body reduced to
the category name it carries (`none` for a missing/empty body). -/
def categoryPost (validate : String → Bool) (newId : Nat)
    (store : List CategoryRec) (body? : Option String) : PostOutcome (List CategoryRec) :=
  match body? with
  | none => ⟨HTTP_400_BAD_REQUEST, "No input data provided", store⟩
  | some name =>
    if !validate name then
      ⟨HTTP_400_BAD_REQUEST, "validation errors", store⟩
    else if !Category.is_unique store 0 name then
      ⟨HTTP_400_BAD_REQUEST, "A category with the same name already exists", store⟩
    else
      ⟨HTTP_201_CREATED, "created", store ++ [⟨newId, name⟩]⟩

/-- The parsed JSON body of a product POST. -/
structure ProductBody where
  product : String
  price : Int
  size : String
  quantity : Int
  categoryName : String
deriving DecidableEq, Repr

/-- ProductListResource.post (views.py lines 176-210): after validation
and the uniqueness check on the product name, looks the category up by
name, creating it when absent, then inserts the product.  `newCatId` and
`newProdId` are the primary keys the store would assign. -/
def productPost (validate : ProductBody → Bool) (newCatId newProdId : Nat)
    (cats : List CategoryRec) (prods : List ProductRec) (body? : Option ProductBody) :
    PostOutcome (List CategoryRec × List ProductRec) :=
  match body? with
  | none => ⟨HTTP_400_BAD_REQUEST, "No input data provided", (cats, prods)⟩
  | some b =>
    if !validate b then
      ⟨HTTP_400_BAD_REQUEST, "validation errors", (cats, prods)⟩
    else if !Product.is_unique prods 0 b.product then
      ⟨HTTP_400_BAD_REQUEST, "A product with the same name already exists", (cats, prods)⟩
    else
      match cats.find? (fun c => c.name == b.categoryName) with
      | some c =>
        ⟨HTTP_201_CREATED, "created",
          (cats, prods ++ [⟨newProdId, b.product, b.price, b.size, b.quantity, c.id⟩])⟩
      | none =>
        ⟨HTTP_201_CREATED, "created",
          (cats ++ [⟨newCatId, b.categoryName⟩],
           prods ++ [⟨newProdId, b.product, b.price, b.size, b.quantity, newCatId⟩])⟩

/-- The parsed JSON body of a user POST. -/
structure UserBody where
  name : String
  email : String
  password : String
deriving DecidableEq, Repr

/-- UserListResource.post (views.py lines 74-110).  `passwordOk` is the
external password-strength check of the User model; a new user starts
unconfirmed. -/
def userPost (validate : UserBody → Bool) (passwordOk : String → Bool) (newId : Nat)
    (users : List UserRec) (body? : Option UserBody) : PostOutcome (List UserRec) :=
  match body? with
  | none => ⟨HTTP_400_BAD_REQUEST, "No input data provided", users⟩
  | some b =>
    if !validate b then
      ⟨HTTP_400_BAD_REQUEST, "validation errors", users⟩
    else
      match users.find? (fun u => u.name == b.name) with
      | some _ => ⟨HTTP_400_BAD_REQUEST, "An user with the same name already exists", users⟩
      | none =>
        if passwordOk b.password then
          ⟨HTTP_201_CREATED, "created", users ++ [⟨newId, b.name, b.email, false, none⟩]⟩
        else
          ⟨HTTP_400_BAD_REQUEST, "password error", users⟩

/-! ## Account confirmation (src/api/views.py, ConfirmTokenResources) -/

/-- Sets `confirmed := true` and stamps `confirmed_on` on the first user
carrying the given email, leaving every other row unchanged — the
mutation ConfirmTokenResources.get commits on the user found by
`filter_by(email=email).first_or_404()`. -/
def setConfirmedFirst (email : String) (now : Nat) : List UserRec → List UserRec
  | [] => []
  | u :: rest =>
    if u.email == email then
      { u with confirmed := true, confirmed_on := some now } :: rest
    else
      u :: setConfirmedFirst email now rest

/-- ConfirmTokenResources.get (views.py lines 42-59).  `tokenEmail?` is
the outcome of the external `confirm_token` verifier: `none` when it
raises (invalid or expired token), `some email` when the token verifies.
`now` is the current timestamp.  Returns the HTTP status and the user
table as left by the handler. -/
def confirmTokenGet (tokenEmail? : Option String) (users : List UserRec) (now : Nat) :
    Nat × List UserRec :=
  match tokenEmail? with
  | none => (HTTP_400_BAD_REQUEST, users)
  | some email =>
    match users.find? (fun u => u.email == email) with
    | none => (HTTP_404_NOT_FOUND, users)
    | some u =>
      if u.confirmed then
        (HTTP_200_OK, users)
      else
        (HTTP_201_CREATED, setConfirmedFirst email now users)

/-! ## Concrete instances used by the witnesses below -/

def demoCfg : PaginationConfig := ⟨25, 100⟩

def demoData : List Nat := [10, 20, 30]

def demoPage : Page Nat := mkPage demoData "/products/" (fun n => n) 1 2

def demoEmptyPage : Page Nat := mkPage ([] : List Nat) "/products/" (fun n => n) 1 25

def demoCats : List CategoryRec := [⟨1, "shirts"⟩, ⟨2, "pants"⟩]

/-! ## Helper lemmas about the pagination engine -/

lemma effPerPage_pos (cfg : PaginationConfig) (perPage? : Option Int) :
    0 < effPerPage cfg perPage? := by
  simp only [effPerPage, clampPerPage]
  omega

lemma pageCountOf_eq_ceil (n d : Nat) (hd : 0 < d) :
    ((pageCountOf n d : ℤ) = ⌈(n : ℚ) / (d : ℚ)⌉) := by
  have hdq : (0 : ℚ) < (d : ℚ) := by exact_mod_cast hd
  have hmod := Nat.div_add_mod (n + d - 1) d
  have hr : (n + d - 1) % d < d := Nat.mod_lt _ hd
  have h1 : n ≤ d * ((n + d - 1) / d) := by omega
  have h2 : d * ((n + d - 1) / d) < n + d := by omega
  unfold pageCountOf
  set k := (n + d - 1) / d with hk
  have h1q : (n : ℚ) ≤ (d : ℚ) * (k : ℚ) := by exact_mod_cast h1
  have h2q : (d : ℚ) * (k : ℚ) < (n : ℚ) + (d : ℚ) := by exact_mod_cast h2
  rw [eq_comm, Int.ceil_eq_iff]
  simp only [Int.cast_natCast]
  constructor
  · rw [lt_div_iff₀ hdq]
    linarith
  · rw [div_le_iff₀ hdq]
    linarith

lemma paginate_ok_elim {α σ : Type} {cfg : PaginationConfig} {data : List α} {ep : String}
    {ser : α → σ} {page? perPage? : Option Int} {pg : Page σ}
    (h : paginate cfg data ep ser page? perPage? = Except.ok pg) :
    1 ≤ page?.getD 1 ∧
    ¬(0 < data.length ∧
        data.length ≤ ((page?.getD 1).toNat - 1) * effPerPage cfg perPage?) ∧
    pg = mkPage data ep ser (page?.getD 1).toNat (effPerPage cfg perPage?) := by
  unfold paginate at h
  split_ifs at h with h1 h2
  · refine ⟨by omega, h2, ?_⟩
    simp only [Except.ok.injEq] at h
    exact h.symm

/-! ## C1 -/

/-- C1: for every successful paginate call the returned page count is
the ceiling of the total count divided by the effective page size. -/
theorem paginate_pageCount_is_ceil {α σ : Type} (cfg : PaginationConfig) (data : List α)
    (ep : String) (ser : α → σ) (page? perPage? : Option Int) (pg : Page σ)
    (h : paginate cfg data ep ser page? perPage? = Except.ok pg) :
    (pg.pageCount : ℤ) = ⌈(pg.totalCount : ℚ) / (effPerPage cfg perPage? : ℚ)⌉ := by
  obtain ⟨-, -, hpg⟩ := paginate_ok_elim h
  subst hpg
  exact pageCountOf_eq_ceil data.length _ (effPerPage_pos cfg perPage?)

theorem paginate_pageCount_is_ceil_witness :
    (demoPage.pageCount : ℤ) = ⌈(demoPage.totalCount : ℚ) / (effPerPage demoCfg (some 2) : ℚ)⌉ :=
  paginate_pageCount_is_ceil demoCfg demoData "/products/" (fun n => n) (some 1) (some 2)
    demoPage rfl

/-! ## C3 -/

/-- C3: in every successful paginate result, a next link is present iff
the requested page lies strictly below the page count, and a prev link
is present iff the requested page lies strictly above 1. -/
theorem paginate_links_iff {α σ : Type} (cfg : PaginationConfig) (data : List α)
    (ep : String) (ser : α → σ) (page? perPage? : Option Int) (pg : Page σ)
    (h : paginate cfg data ep ser page? perPage? = Except.ok pg) :
    (pg.nextLink.isSome = true ↔ (page?.getD 1).toNat < pg.pageCount) ∧
    (pg.prevLink.isSome = true ↔ 1 < (page?.getD 1).toNat) := by
  obtain ⟨-, -, hpg⟩ := paginate_ok_elim h
  subst hpg
  simp only [mkPage]
  constructor
  · split_ifs with hx <;> simp [hx]
  · split_ifs with hx <;> simp [hx]

theorem paginate_links_iff_witness :
    (demoPage.nextLink.isSome = true ↔ ((some (1 : Int)).getD 1).toNat < demoPage.pageCount) ∧
    (demoPage.prevLink.isSome = true ↔ 1 < ((some (1 : Int)).getD 1).toNat) :=
  paginate_links_iff demoCfg demoData "/products/" (fun n => n) (some 1) (some 2) demoPage rfl

/-! ## C4 -/

/-- C4: a successful paginate call at a page strictly below the page
count returns exactly the effective page size of items; a successful
call cannot address a page beyond the page count of a non-empty
collection; and on the last page the number of returned items is the
remainder `totalCount - (page-1)*perPage`. -/
theorem paginate_items_length {α σ : Type} (cfg : PaginationConfig) (data : List α)
    (ep : String) (ser : α → σ) (page? perPage? : Option Int) (pg : Page σ)
    (h : paginate cfg data ep ser page? perPage? = Except.ok pg) :
    ((page?.getD 1).toNat < pg.pageCount → pg.items.length = effPerPage cfg perPage?) ∧
    (0 < pg.totalCount → (page?.getD 1).toNat ≤ pg.pageCount) ∧
    ((page?.getD 1).toNat = pg.pageCount → 0 < pg.totalCount →
      pg.items.length = pg.totalCount - ((page?.getD 1).toNat - 1) * effPerPage cfg perPage?) := by
  obtain ⟨hp1, hrange, hpg⟩ := paginate_ok_elim h
  subst hpg
  have hd : 0 < effPerPage cfg perPage? := effPerPage_pos cfg perPage?
  set pp := effPerPage cfg perPage? with hppdef
  set p := (page?.getD 1).toNat with hpdef
  set len := data.length with hlendef
  have hp1' : 1 ≤ p := by omega
  have hmod := Nat.div_add_mod (len + pp - 1) pp
  have hr : (len + pp - 1) % pp < pp := Nat.mod_lt _ hd
  have hsub := Nat.sub_one_mul p pp
  have hb : pp ≤ p * pp := Nat.le_mul_of_pos_left pp hp1'
  have hA : (p - 1) * pp + pp = p * pp := by omega
  have hsucc : (p + 1) * pp = p * pp + pp := by ring
  simp only [mkPage, pageCountOf, List.length_map, List.length_take, List.length_drop]
  refine ⟨?_, ?_, ?_⟩
  · intro hlt
    have hlt' : p + 1 ≤ (len + pp - 1) / pp := hlt
    have hle : (p + 1) * pp ≤ len + pp - 1 := (Nat.le_div_iff_mul_le hd).mp hlt'
    omega
  · intro hpos
    have hAlt : (p - 1) * pp < len := by
      by_contra hcon
      exact hrange ⟨hpos, by omega⟩
    have hBle : p * pp ≤ len + pp - 1 := by omega
    exact (Nat.le_div_iff_mul_le hd).mpr hBle
  · intro heq hpos
    have hq : len ≤ pp * ((len + pp - 1) / pp) := by omega
    have hq' : len ≤ p * pp := by
      rw [Nat.mul_comm] at hq
      rw [← heq] at hq
      exact hq
    omega

theorem paginate_items_length_witness :
    demoPage.items.length = effPerPage demoCfg (some 2) :=
  (paginate_items_length demoCfg demoData "/products/" (fun n => n) (some 1) (some 2)
    demoPage rfl).1 (by decide)

/-! ## C5 -/

/-- C5: paginate fails with InvalidPage exactly when the requested page
is below 1, fails with PageOutOfRange when the offset `(page-1)*perPage`
reaches a positive total count, and every client error carries a
4xx-class HTTP status. -/
theorem paginate_client_errors {α σ : Type} (cfg : PaginationConfig) (data : List α)
    (ep : String) (ser : α → σ) (page? perPage? : Option Int) :
    (page?.getD 1 < 1 →
      paginate cfg data ep ser page? perPage? = Except.error ClientError.InvalidPage) ∧
    (1 ≤ page?.getD 1 → 0 < data.length →
      data.length ≤ ((page?.getD 1).toNat - 1) * effPerPage cfg perPage? →
      paginate cfg data ep ser page? perPage? = Except.error ClientError.PageOutOfRange) ∧
    (∀ e : ClientError, HTTP_400_BAD_REQUEST ≤ e.httpStatus ∧ e.httpStatus < 500) := by
  refine ⟨?_, ?_, ?_⟩
  · intro h1
    unfold paginate
    rw [if_pos h1]
  · intro h1 h2 h3
    unfold paginate
    rw [if_neg (by omega), if_pos ⟨h2, h3⟩]
  · intro e
    cases e <;> simp [ClientError.httpStatus, HTTP_400_BAD_REQUEST, HTTP_404_NOT_FOUND]

theorem paginate_client_errors_witness :
    paginate demoCfg demoData "/products/" (fun n => n) (some 0) (some 2) =
      Except.error ClientError.InvalidPage ∧
    paginate demoCfg demoData "/products/" (fun n => n) (some 6) (some 2) =
      Except.error ClientError.PageOutOfRange :=
  ⟨(paginate_client_errors demoCfg demoData "/products/" (fun n => n)
      (some 0) (some 2)).1 (by decide),
   (paginate_client_errors demoCfg demoData "/products/" (fun n => n)
      (some 6) (some 2)).2.1 (by decide) (by decide) (by decide)⟩

/-! ## C6 -/

/-- C6: the effective page size of every paginate call is the requested
per_page clamped into `[1, maxPerPage]`: it is at least 1, at most the
configured maximum, the identity on requests already in range; with a
configured maximum of 100 a request of 1000 clamps to 100; and a
paginate call behaves exactly as the same call with the clamped value
requested. -/
theorem effPerPage_clamped {α σ : Type} (cfg : PaginationConfig) (requested : Int)
    (data : List α) (ep : String) (ser : α → σ) (page? : Option Int) :
    1 ≤ clampPerPage cfg requested ∧
    (1 ≤ cfg.maxPerPage → clampPerPage cfg requested ≤ cfg.maxPerPage) ∧
    (1 ≤ requested → requested.toNat ≤ cfg.maxPerPage →
      clampPerPage cfg requested = requested.toNat) ∧
    effPerPage cfg (some requested) = clampPerPage cfg requested ∧
    (cfg.maxPerPage = 100 → clampPerPage cfg 1000 = 100) ∧
    paginate cfg data ep ser page? (some requested) =
      paginate cfg data ep ser page? (some ((clampPerPage cfg requested : Nat) : Int)) := by
  have heff : effPerPage cfg (some ((clampPerPage cfg requested : Nat) : Int)) =
      effPerPage cfg (some requested) := by
    simp only [effPerPage, clampPerPage, Option.getD_some, Int.toNat_natCast]
    omega
  refine ⟨?_, ?_, ?_, rfl, ?_, ?_⟩
  · simp only [clampPerPage]
    omega
  · intro h
    simp only [clampPerPage]
    omega
  · intro h1 h2
    simp only [clampPerPage]
    omega
  · intro h
    simp only [clampPerPage, h]
    rfl
  · unfold paginate
    rw [heff]

theorem effPerPage_clamped_witness :
    1 ≤ clampPerPage demoCfg 1000 ∧ clampPerPage demoCfg 1000 = 100 :=
  ⟨(effPerPage_clamped demoCfg 1000 demoData "/products/" (fun n => n) (some 1)).1,
   (effPerPage_clamped demoCfg 1000 demoData "/products/" (fun n => n)
      (some 1)).2.2.2.2.1 rfl⟩

/-! ## C7 -/

/-- C7 counterexample: a paginate call over an empty collection is not
free of prev links — the out-of-range check only fires for a positive
total count, so a request for page 5 of an empty collection succeeds and
carries a prev link (prev is present iff page > 1, whatever the count). -/
theorem empty_collection_prev_link_present :
    (paginate demoCfg ([] : List Nat) "/products/" (fun n => n) (some 5) (some 25)).map
      (fun pg => pg.prevLink.isSome) = Except.ok true := by
  rfl

/-- C7 amended: every successful paginate call over an empty collection
returns total count 0, page count 0, an empty item list and no next
link; the prev link is absent exactly when the requested page is at
most 1 — in particular for the default request — and present for
explicitly requested pages above 1. -/
theorem paginate_empty_collection {α σ : Type} (cfg : PaginationConfig)
    (ep : String) (ser : α → σ) (page? perPage? : Option Int) (pg : Page σ)
    (h : paginate cfg ([] : List α) ep ser page? perPage? = Except.ok pg) :
    pg.totalCount = 0 ∧ pg.pageCount = 0 ∧ pg.items = [] ∧ pg.nextLink = none ∧
    (pg.prevLink = none ↔ (page?.getD 1).toNat ≤ 1) := by
  obtain ⟨-, -, hpg⟩ := paginate_ok_elim h
  subst hpg
  have hd : 0 < effPerPage cfg perPage? := effPerPage_pos cfg perPage?
  have hzero : pageCountOf 0 (effPerPage cfg perPage?) = 0 := by
    unfold pageCountOf
    exact Nat.div_eq_of_lt (by omega)
  refine ⟨rfl, ?_, ?_, ?_, ?_⟩
  · simpa [mkPage] using hzero
  · simp [mkPage]
  · simp [mkPage, hzero]
  · simp only [mkPage]
    split_ifs with hx <;> simp <;> omega

theorem paginate_empty_collection_witness :
    demoEmptyPage.totalCount = 0 ∧ demoEmptyPage.pageCount = 0 ∧
    demoEmptyPage.items = [] ∧ demoEmptyPage.nextLink = none ∧
    (demoEmptyPage.prevLink = none ↔ ((none : Option Int).getD 1).toNat ≤ 1) :=
  paginate_empty_collection demoCfg "/products/" (fun n => n) none none demoEmptyPage rfl

/-! ## C8 -/

/-- C8: paginate is a deterministic pure computation reading the backing
data only through its total count and the one requested slice: two calls
with identical request parameters over backing data that agree on the
count and on the requested slice produce identical results, failures
included. -/
theorem paginate_deterministic {α σ : Type} (cfg : PaginationConfig) (data₁ data₂ : List α)
    (ep : String) (ser : α → σ) (page? perPage? : Option Int)
    (hcount : data₁.length = data₂.length)
    (hslice :
      (data₁.drop (((page?.getD 1).toNat - 1) * effPerPage cfg perPage?)).take
          (effPerPage cfg perPage?) =
        (data₂.drop (((page?.getD 1).toNat - 1) * effPerPage cfg perPage?)).take
          (effPerPage cfg perPage?)) :
    paginate cfg data₁ ep ser page? perPage? = paginate cfg data₂ ep ser page? perPage? := by
  unfold paginate mkPage
  rw [hcount, hslice]

theorem paginate_deterministic_witness :
    paginate demoCfg [1, 2, 3, 4] "/products/" (fun n => n) (some 1) (some 2) =
      paginate demoCfg [1, 2, 5, 6] "/products/" (fun n => n) (some 1) (some 2) :=
  paginate_deterministic demoCfg [1, 2, 3, 4] [1, 2, 5, 6] "/products/" (fun n => n)
    (some 1) (some 2) rfl rfl

/-! ## C2 -/

/-- C2 counterexample: the categories list endpoint does not answer a
paginated page.  Over a two-category store with `page=1&per_page=1`, the
pagination engine the spec prescribes for `/categories/` would return a
single item, but CategoryListResource.get returns the whole serialized
store, never reading the query parameters. -/
theorem categories_get_not_paginated :
    categoryListGet CategoryRec.name demoCats = ["shirts", "pants"] ∧
    (categoryListGetSpec demoCfg CategoryRec.name demoCats
        ⟨some 1, some 1⟩).toOption.map Page.items = some ["shirts"] ∧
    (categoryListGetSpec demoCfg CategoryRec.name demoCats
        ⟨some 1, some 1⟩).toOption.map Page.items ≠
      some (categoryListGet CategoryRec.name demoCats) := by
  refine ⟨rfl, rfl, ?_⟩
  decide

/-- C2 amended: GET on the /products/ and /users/ list endpoints is a
paginated page produced by the pagination engine from the page and
per_page query parameters, a missing parameter defaulting to page 1 and
the configured page size; GET on /categories/ instead returns the whole
collection serialized, ignoring the query parameters. -/
theorem list_get_endpoints {σ τ υ : Type} (cfg : PaginationConfig)
    (fc : CategoryRec → σ) (fp : ProductRec → τ) (fu : UserRec → υ)
    (cats : List CategoryRec) (prods : List ProductRec) (users : List UserRec)
    (q : ListQueryParams) :
    productListGet cfg fp prods q = paginate cfg prods "/products/" fp q.page q.perPage ∧
    userListGet cfg fu users q = paginate cfg users "/users/" fu q.page q.perPage ∧
    categoryListGet fc cats = cats.map fc ∧
    paginate cfg prods "/products/" fp none none =
      paginate cfg prods "/products/" fp (some 1) (some (cfg.defaultPerPage : Int)) :=
  ⟨rfl, rfl, rfl, rfl⟩

/-! ## C9 -/

/-- C9: a POST to any of the three list endpoints naming an entity whose
name is already stored answers 400 and leaves the store unchanged.  For
categories and products the uniqueness check exempts the id the caller
passes (views.py passes 0, an id no persisted row carries), so the
duplicate row is required to have a nonzero id. -/
theorem duplicate_name_post_is_rejected
    (validC : String → Bool) (validP : ProductBody → Bool) (validU : UserBody → Bool)
    (pwOk : String → Bool) (idC idPC idP idU : Nat)
    (cats : List CategoryRec) (prods : List ProductRec) (users : List UserRec)
    (cname : String) (pb : ProductBody) (ub : UserBody) :
    ((∃ c ∈ cats, c.name = cname ∧ c.id ≠ 0) →
      (categoryPost validC idC cats (some cname)).status = HTTP_400_BAD_REQUEST ∧
      (categoryPost validC idC cats (some cname)).store = cats) ∧
    ((∃ p ∈ prods, p.product = pb.product ∧ p.id ≠ 0) →
      (productPost validP idPC idP cats prods (some pb)).status = HTTP_400_BAD_REQUEST ∧
      (productPost validP idPC idP cats prods (some pb)).store = (cats, prods)) ∧
    ((∃ u ∈ users, u.name = ub.name) →
      (userPost validU pwOk idU users (some ub)).status = HTTP_400_BAD_REQUEST ∧
      (userPost validU pwOk idU users (some ub)).store = users) := by
  refine ⟨?_, ?_, ?_⟩
  · rintro ⟨c, hmem, hname, hid⟩
    have huniq : Category.is_unique cats 0 cname = false :=
      List.all_eq_false.mpr ⟨c, hmem, by simp [hname, hid]⟩
    cases hv : validC cname <;> simp [categoryPost, hv, huniq]
  · rintro ⟨p, hmem, hname, hid⟩
    have huniq : Product.is_unique prods 0 pb.product = false :=
      List.all_eq_false.mpr ⟨p, hmem, by simp [hname, hid]⟩
    cases hv : validP pb <;> simp [productPost, hv, huniq]
  · rintro ⟨u, hmem, hname⟩
    have hsome : (users.find? (fun v => v.name == ub.name)).isSome :=
      List.find?_isSome.mpr ⟨u, hmem, by simp [hname]⟩
    obtain ⟨w, hw⟩ := Option.isSome_iff_exists.mp hsome
    cases hv : validU ub <;> simp [userPost, hv, hw]

theorem duplicate_name_post_is_rejected_witness :
    ((categoryPost (fun _ => true) 7 demoCats (some "shirts")).status = HTTP_400_BAD_REQUEST ∧
      (categoryPost (fun _ => true) 7 demoCats (some "shirts")).store = demoCats) ∧
    ((userPost (fun _ => true) (fun _ => true) 7
        [⟨1, "bob", "bob@example.com", false, none⟩]
        (some ⟨"bob", "bob2@example.com", "pw"⟩)).status = HTTP_400_BAD_REQUEST ∧
      (userPost (fun _ => true) (fun _ => true) 7
        [⟨1, "bob", "bob@example.com", false, none⟩]
        (some ⟨"bob", "bob2@example.com", "pw"⟩)).store =
          [⟨1, "bob", "bob@example.com", false, none⟩]) :=
  ⟨(duplicate_name_post_is_rejected (fun _ => true) (fun _ => true) (fun _ => true)
      (fun _ => true) 7 7 7 7 demoCats [] [⟨1, "bob", "bob@example.com", false, none⟩]
      "shirts" ⟨"t", 1, "M", 1, "c"⟩ ⟨"bob", "bob2@example.com", "pw"⟩).1
      ⟨⟨1, "shirts"⟩, by decide, by decide, by decide⟩,
   (duplicate_name_post_is_rejected (fun _ => true) (fun _ => true) (fun _ => true)
      (fun _ => true) 7 7 7 7 demoCats [] [⟨1, "bob", "bob@example.com", false, none⟩]
      "shirts" ⟨"t", 1, "M", 1, "c"⟩ ⟨"bob", "bob2@example.com", "pw"⟩).2.2
      ⟨⟨1, "bob", "bob@example.com", false, none⟩, by decide, by decide⟩⟩

/-! ## C10 -/

lemma setConfirmedFirst_getD_confirmed (email : String) (now : Nat) (l : List UserRec)
    (i : Nat) (du : UserRec) (h : (l.getD i du).confirmed = true) :
    ((setConfirmedFirst email now l).getD i du).confirmed = true := by
  induction l generalizing i with
  | nil => simpa [setConfirmedFirst] using h
  | cons u rest ih =>
    simp only [setConfirmedFirst]
    split_ifs with he
    · cases i with
      | zero => simp
      | succ j => simpa using h
    · cases i with
      | zero => simpa using h
      | succ j =>
        simp only [List.getD_cons_succ] at h ⊢
        exact ih j h

lemma setConfirmedFirst_find? (email : String) (now : Nat) (l : List UserRec) (u : UserRec)
    (h : l.find? (fun v => v.email == email) = some u) :
    (setConfirmedFirst email now l).find? (fun v => v.email == email) =
      some { u with confirmed := true, confirmed_on := some now } := by
  induction l with
  | nil => simp at h
  | cons w rest ih =>
    by_cases hw : w.email == email
    · simp only [List.find?_cons, hw] at h
      injection h with h
      subst h
      simp [setConfirmedFirst, hw, List.find?_cons]
    · rw [Bool.not_eq_true] at hw
      simp only [List.find?_cons, hw] at h
      simp only [setConfirmedFirst, hw, Bool.false_eq_true, if_false, List.find?_cons]
      exact ih h

/-- C10: the account-confirmation endpoint answers 400 and changes no
user when the token does not verify; answers 200 and changes no user
when the token verifies to an already confirmed user; otherwise answers
201 and sets the found user confirmed with the current timestamp — and
under no input does it ever turn any user's confirmed flag from true
back to false. -/
theorem confirm_token_get_spec (tokenEmail? : Option String) (users : List UserRec)
    (now : Nat) :
    (tokenEmail? = none →
      confirmTokenGet tokenEmail? users now = (HTTP_400_BAD_REQUEST, users)) ∧
    (∀ email u, tokenEmail? = some email →
      users.find? (fun v => v.email == email) = some u → u.confirmed = true →
      confirmTokenGet tokenEmail? users now = (HTTP_200_OK, users)) ∧
    (∀ email u, tokenEmail? = some email →
      users.find? (fun v => v.email == email) = some u → u.confirmed = false →
      (confirmTokenGet tokenEmail? users now).1 = HTTP_201_CREATED ∧
      (confirmTokenGet tokenEmail? users now).2.find? (fun v => v.email == email) =
        some { u with confirmed := true, confirmed_on := some now }) ∧
    (∀ i du, (users.getD i du).confirmed = true →
      ((confirmTokenGet tokenEmail? users now).2.getD i du).confirmed = true) := by
  refine ⟨?_, ?_, ?_, ?_⟩
  · intro h
    subst h
    rfl
  · intro email u he hf hc
    subst he
    simp [confirmTokenGet, hf, hc]
  · intro email u he hf hc
    subst he
    refine ⟨by simp [confirmTokenGet, hf, hc], ?_⟩
    simp only [confirmTokenGet, hf, hc]
    simpa using setConfirmedFirst_find? email now users u hf
  · intro i du h
    cases htok : tokenEmail? with
    | none => simpa [confirmTokenGet] using h
    | some email =>
      cases hf : users.find? (fun v => v.email == email) with
      | none => simpa [confirmTokenGet, hf] using h
      | some u =>
        simp only [confirmTokenGet, hf]
        by_cases hc : u.confirmed = true
        · rw [if_pos hc]
          exact h
        · rw [if_neg hc]
          exact setConfirmedFirst_getD_confirmed email now users i du h

theorem confirm_token_get_spec_witness :
    (confirmTokenGet (some "bob@example.com")
        [⟨1, "bob", "bob@example.com", false, none⟩] 7).1 = HTTP_201_CREATED ∧
    (confirmTokenGet (some "bob@example.com")
        [⟨1, "bob", "bob@example.com", false, none⟩] 7).2.find?
        (fun v => v.email == "bob@example.com") =
      some ⟨1, "bob", "bob@example.com", true, some 7⟩ :=
  (confirm_token_get_spec (some "bob@example.com")
      [⟨1, "bob", "bob@example.com", false, none⟩] 7).2.2.1
    "bob@example.com" ⟨1, "bob", "bob@example.com", false, none⟩ rfl (by decide) rfl
